import Mathlib

/-!
# CardiacSim — formal model of the EKG-parameter resolver and signal pipeline

Shallow embedding of `src/ekg_simulator` (Python).  Python floats are
modelled as rationals, Python dictionaries with `.get(key, default)`
reads as structures of `Option` fields, and a Python `NameError`
(reference to a never-assigned local/global name) as an `Except.error`
value naming the offending identifier.
-/

namespace CardiacSim

/-- A Python `NameError`/`UnboundLocalError`: the identifier that was read
without ever having been assigned. -/
inductive NameErr where
  | base_heart_rate
  | target_pr_interval_ms
deriving DecidableEq, Repr

/-- The `physiological_state` dictionary passed to
`PhysiologicalEffectsManager.update_ekg_parameters`.  Each key may be
absent (`none`); the resolver reads every key through `.get(key, default)`,
modelled as `Option.getD`. -/
structure PhysState where
  blood_volume_percent : Option ℚ := none
  heart_rate_bpm : Option ℚ := none
  st_depression_mv : Option ℚ := none
  tension_pneumothorax_present : Option Bool := none
  qrs_amplitude_factor : Option ℚ := none
  tbi_present : Option Bool := none
  icp_mmhg : Option ℚ := none
  t_wave_amplitude_factor : Option ℚ := none
  qt_duration_ms : Option ℚ := none
  blast_injury_present : Option Bool := none
  coronary_age_suspected : Option Bool := none
  st_elevation_mv : Option ℚ := none
  serum_k_meq_l : Option ℚ := none
  pr_interval_ms : Option ℚ := none
  qrs_duration_ms : Option ℚ := none
  serum_ca_mg_dl : Option ℚ := none
  core_body_temperature_celsius : Option ℚ := none
  osborn_wave_present : Option Bool := none
  ketamine_active : Option Bool := none
  morphine_active : Option Bool := none
deriving DecidableEq, Repr

/-- The dictionary returned by `update_ekg_parameters`. -/
structure Shaping where
  target_heart_rate : ℚ
  target_st_depression_mv : ℚ
  target_qrs_amplitude_factor : ℚ
  target_t_wave_amplitude_factor : ℚ
  target_qt_duration_ms : ℚ
  target_st_elevation_mv : ℚ
  target_pr_interval_ms : ℚ
  target_qrs_duration_ms : ℚ
  target_osborn_wave_present : Bool
deriving DecidableEq, Repr

/-- Python 3 `round`: round half to even ("banker's rounding"). -/
def pyRound (x : ℚ) : ℤ :=
  let f := ⌊x⌋
  let r := x - f
  if r < 1/2 then f
  else if 1/2 < r then f + 1
  else if f % 2 = 0 then f else f + 1

/-- `PhysiologicalEffectsManager.update_ekg_parameters`
(`physiological_effects_manager.py`, lines 12-223), modelled statement by
statement.  Two reads of never-assigned names in the source are modelled
as `Except.error`:
* every hypovolemic-shock tier with `blood_volume_percent <= 90`
  evaluates `base_heart_rate * np.random.uniform(...)` (lines 46/50/54),
  and `base_heart_rate` is defined nowhere, so Python raises `NameError`
  before the random draw is ever made — hence the function is in fact
  deterministic;
* the returned dictionary (line 220) reads `target_pr_interval_ms`,
  a local assigned only inside the hypothermia tiers (lines 183/189/195),
  so every call with `core_body_temperature_celsius >= 35` raises
  `UnboundLocalError` at the `return` statement.
The hyperkalemia tiers write the distinct locals `target_pr_ms` /
`target_qrs_ms` (lines 134-147), which never flow into the returned
dictionary; they are kept here verbatim as dead lets. -/
def update_ekg_parameters (physiological_state : PhysState) : Except NameErr Shaping :=
  let blood_volume_percent := physiological_state.blood_volume_percent.getD 100
  let current_heart_rate := physiological_state.heart_rate_bpm.getD 70
  let target_heart_rate := current_heart_rate
  let target_st_depression_mv := physiological_state.st_depression_mv.getD 0
  if ¬ (blood_volume_percent > 90) then
    -- tiers II, III and IV all read the undefined name `base_heart_rate`
    .error NameErr.base_heart_rate
  else
    -- Tension Pneumothorax Logic (lines 61-73)
    let pneumo := physiological_state.tension_pneumothorax_present.getD false
    let target_heart_rate :=
      if pneumo then max target_heart_rate (current_heart_rate * (3/2)) else target_heart_rate
    let target_heart_rate :=
      if pneumo then max target_heart_rate 120 else target_heart_rate
    let target_qrs_amplitude_factor : ℚ := if pneumo then 1/2 else 1
    -- Round to integer and cap at 220 (lines 76-78)
    let target_heart_rate : ℚ := ((pyRound target_heart_rate : ℤ) : ℚ)
    let target_heart_rate := min target_heart_rate 220
    -- TBI/ICP Logic (lines 84-106)
    let target_t_wave_amplitude_factor := physiological_state.t_wave_amplitude_factor.getD 1
    let target_qt_duration_ms := physiological_state.qt_duration_ms.getD 440
    let target_st_elevation_mv := physiological_state.st_elevation_mv.getD 0
    let tbiC : Bool := physiological_state.tbi_present.getD false
      && decide (physiological_state.icp_mmhg.getD 10 > 20)
    let blastC : Bool := physiological_state.blast_injury_present.getD false
      && physiological_state.coronary_age_suspected.getD false
    let target_heart_rate :=
      if tbiC then max 40 (min target_heart_rate 55) else target_heart_rate
    let target_t_wave_amplitude_factor : ℚ :=
      if tbiC then 2 else if !blastC then 1 else target_t_wave_amplitude_factor
    let target_qt_duration_ms :=
      if tbiC then 500
      else if !blastC then physiological_state.qt_duration_ms.getD 440
      else target_qt_duration_ms
    -- Blast Injury/AGE Logic (lines 112-127)
    let target_heart_rate := if blastC then max target_heart_rate 110 else target_heart_rate
    let target_st_elevation_mv : ℚ := if blastC then 2/10 else 0
    let target_st_depression_mv :=
      if blastC then (if target_st_elevation_mv > 0 then 0 else target_st_depression_mv)
      else target_st_depression_mv
    -- Hyperkalemia Logic (lines 132-148); `target_pr_ms`/`target_qrs_ms` are dead
    let serum_k := physiological_state.serum_k_meq_l.getD 4
    let target_pr_ms := physiological_state.pr_interval_ms.getD 160
    let target_qrs_ms := physiological_state.qrs_duration_ms.getD 100
    let target_t_wave_amplitude_factor :=
      if serum_k > 11/2 then max target_t_wave_amplitude_factor (3/2)
      else target_t_wave_amplitude_factor
    let target_t_wave_amplitude_factor :=
      if serum_k > 13/2 then max target_t_wave_amplitude_factor 2
      else target_t_wave_amplitude_factor
    let target_pr_ms := if serum_k > 13/2 then 240 else target_pr_ms
    let target_qrs_ms := if serum_k > 13/2 then 120 else target_qrs_ms
    let target_heart_rate :=
      if serum_k > 13/2 then min target_heart_rate 70 else target_heart_rate
    let target_t_wave_amplitude_factor :=
      if serum_k > 15/2 then max target_t_wave_amplitude_factor (5/2)
      else target_t_wave_amplitude_factor
    let target_pr_ms := if serum_k > 15/2 then 300 else target_pr_ms
    let target_qrs_ms := if serum_k > 15/2 then 160 else target_qrs_ms
    let target_heart_rate :=
      if serum_k > 15/2 then min target_heart_rate 60 else target_heart_rate
    -- Final HR cap (line 151)
    let target_heart_rate := min target_heart_rate 220
    -- Hypocalcemia Logic (lines 154-165): maxes against the *state's* QT
    let serum_ca_mg_dl := physiological_state.serum_ca_mg_dl.getD (19/2)
    let current_qt_target_from_state := physiological_state.qt_duration_ms.getD 440
    let target_qt_duration_ms :=
      if serum_ca_mg_dl < 7 then max current_qt_target_from_state 520
      else if serum_ca_mg_dl < 17/2 then max current_qt_target_from_state 480
      else target_qt_duration_ms
    -- Hypothermia Logic (lines 170-197): writes `target_pr_interval_ms` /
    -- `target_qrs_duration_ms`, the only assignments those names ever get
    let temp_c := physiological_state.core_body_temperature_celsius.getD 37
    let current_qt_from_state := physiological_state.qt_duration_ms.getD 440
    let current_pr_from_state := physiological_state.pr_interval_ms.getD 160
    let current_qrs_from_state := physiological_state.qrs_duration_ms.getD 100
    let target_heart_rate := if temp_c < 35 then min target_heart_rate 60 else target_heart_rate
    let target_qt_duration_ms :=
      if temp_c < 35 then max current_qt_from_state 480 else target_qt_duration_ms
    let target_heart_rate := if temp_c < 32 then min target_heart_rate 50 else target_heart_rate
    let target_qt_duration_ms :=
      if temp_c < 32 then max current_qt_from_state 500 else target_qt_duration_ms
    let target_heart_rate := if temp_c < 28 then min target_heart_rate 40 else target_heart_rate
    let target_qt_duration_ms :=
      if temp_c < 28 then max current_qt_from_state 550 else target_qt_duration_ms
    -- Drug Effects Logic (lines 200-207)
    let target_heart_rate :=
      if physiological_state.ketamine_active.getD false then target_heart_rate + 20
      else target_heart_rate
    let target_heart_rate :=
      if physiological_state.morphine_active.getD false then target_heart_rate - 15
      else target_heart_rate
    -- Clamping Heart Rate after all effects are applied (line 210)
    let target_heart_rate := max 30 (min target_heart_rate 250)
    -- return dict (lines 213-223).  It reads `target_pr_interval_ms` /
    -- `target_qrs_duration_ms` and `target_osborn_wave_present`, locals
    -- whose true branches all sit inside the hypothermia tiers (osborn is
    -- initialised to False before them).  The tier conditions < 28 and
    -- < 32 each imply < 35, so the interval locals are bound exactly when
    -- `temp_c < 35`, with the value of the severest tier that fired
    -- (later tiers overwrite earlier ones); otherwise the dict evaluation
    -- raises UnboundLocalError at `target_pr_interval_ms`, the first of
    -- the two that it reads.
    if temp_c < 35 then
      .ok { target_heart_rate := target_heart_rate
            target_st_depression_mv := target_st_depression_mv
            target_qrs_amplitude_factor := target_qrs_amplitude_factor
            target_t_wave_amplitude_factor := target_t_wave_amplitude_factor
            target_qt_duration_ms := target_qt_duration_ms
            target_st_elevation_mv := target_st_elevation_mv
            target_pr_interval_ms :=
              if temp_c < 28 then max current_pr_from_state 280
              else if temp_c < 32 then max current_pr_from_state 240
              else max current_pr_from_state 220
            target_qrs_duration_ms :=
              if temp_c < 28 then max current_qrs_from_state 140
              else if temp_c < 32 then max current_qrs_from_state 120
              else max current_qrs_from_state 110
            target_osborn_wave_present := true }
    else .error NameErr.target_pr_interval_ms

/-- The physiological state with every key absent: every read falls back
to its documented default. -/
def PhysState.empty : PhysState := {}

/-- The shaping part of `WaveformGenerator.get_ekg_segment`
(`waveform_generator.py`, lines 25-47).  The raw baseline signal produced
by the external `nk.ecg_simulate` call (line 18) is taken as the input
`raw_signal`; the QT/PR/QRS-duration and Osborn arguments only feed
no-op diagnostic branches (lines 50-62) and are omitted. -/
def get_ekg_segment (raw_signal : List ℚ) (st_depression_mv st_elevation_mv : ℚ)
    (qrs_amplitude_factor t_wave_amplitude_factor : ℚ) : List ℚ :=
  let ekg_signal := raw_signal
  let ekg_signal :=
    if qrs_amplitude_factor ≠ 1 then ekg_signal.map (· * qrs_amplitude_factor) else ekg_signal
  let simplified_t_wave_scaling : ℚ := 1 + (t_wave_amplitude_factor - 1) * (1/10)
  let ekg_signal :=
    if t_wave_amplitude_factor ≠ 1 then
      (if simplified_t_wave_scaling ≠ 1 then ekg_signal.map (· * simplified_t_wave_scaling)
       else ekg_signal)
    else ekg_signal
  let ekg_signal :=
    if st_elevation_mv > 0 then ekg_signal.map (· + st_elevation_mv)
    else if st_depression_mv > 0 then ekg_signal.map (· - st_depression_mv)
    else ekg_signal
  ekg_signal

/-- Python tail slice `xs[-n:]`.  Note the quirk: for `n = 0` the slice is
`xs[0:]`, the whole list, not the empty list. -/
def pyTailSlice (n : ℕ) (xs : List ℚ) : List ℚ :=
  if n = 0 then xs else xs.drop (xs.length - n)

/-- One buffer append of `EKGSimulator._generate_new_data_segment`
(`ekg_simulator.py`, lines 211-217): concatenate the new segment, then
trim from the front to `max_buffer_points` when that bound is exceeded. -/
def appendTrim (max_buffer_points : ℕ) (buf new_segment : List ℚ) : List ℚ :=
  let data := buf ++ new_segment
  if max_buffer_points < data.length then pyTailSlice max_buffer_points data else data

/-- The buffer contents after appending a sequence of segments to an
initially empty buffer, one `appendTrim` at a time. -/
def bufferAfter (max_buffer_points : ℕ) (segments : List (List ℚ)) : List ℚ :=
  segments.foldl (appendTrim max_buffer_points) []

/-- The read part of `EKGSimulator.get_latest_ekg_data`
(`ekg_simulator.py`, lines 229-238): the most recent
`display_seconds * sampling_rate` samples, or the whole buffer when it is
shorter than that. -/
def get_latest_window (display_seconds sampling_rate : ℕ) (buf : List ℚ) : List ℚ :=
  let num_points_to_display := display_seconds * sampling_rate
  if buf.length < num_points_to_display then buf else pyTailSlice num_points_to_display buf

/-- The spec's "most recent n samples" of a sequence. -/
def most_recent_spec (n : ℕ) (xs : List ℚ) : List ℚ := xs.drop (xs.length - n)

/-- The simulator's `physiological_state` dictionary
(`ekg_simulator.py`, lines 17-38): created with every key present and
never losing a key, hence plain fields rather than `Option`s. -/
structure FullPhysState where
  blood_volume_percent : ℚ
  heart_rate_bpm : ℚ
  st_depression_mv : ℚ
  tension_pneumothorax_present : Bool
  qrs_amplitude_factor : ℚ
  tbi_present : Bool
  icp_mmhg : ℚ
  t_wave_amplitude_factor : ℚ
  qt_duration_ms : ℚ
  blast_injury_present : Bool
  coronary_age_suspected : Bool
  st_elevation_mv : ℚ
  serum_k_meq_l : ℚ
  pr_interval_ms : ℚ
  qrs_duration_ms : ℚ
  serum_ca_mg_dl : ℚ
  core_body_temperature_celsius : ℚ
  osborn_wave_present : Bool
  ketamine_active : Bool
  morphine_active : Bool
deriving DecidableEq, Repr

/-- View a full state as the dictionary the resolver receives: every key
present. -/
def FullPhysState.toPhysState (f : FullPhysState) : PhysState where
  blood_volume_percent := some f.blood_volume_percent
  heart_rate_bpm := some f.heart_rate_bpm
  st_depression_mv := some f.st_depression_mv
  tension_pneumothorax_present := some f.tension_pneumothorax_present
  qrs_amplitude_factor := some f.qrs_amplitude_factor
  tbi_present := some f.tbi_present
  icp_mmhg := some f.icp_mmhg
  t_wave_amplitude_factor := some f.t_wave_amplitude_factor
  qt_duration_ms := some f.qt_duration_ms
  blast_injury_present := some f.blast_injury_present
  coronary_age_suspected := some f.coronary_age_suspected
  st_elevation_mv := some f.st_elevation_mv
  serum_k_meq_l := some f.serum_k_meq_l
  pr_interval_ms := some f.pr_interval_ms
  qrs_duration_ms := some f.qrs_duration_ms
  serum_ca_mg_dl := some f.serum_ca_mg_dl
  core_body_temperature_celsius := some f.core_body_temperature_celsius
  osborn_wave_present := some f.osborn_wave_present
  ketamine_active := some f.ketamine_active
  morphine_active := some f.morphine_active

/-- The mutable pieces of `EKGSimulator` touched by a tick
(`ekg_simulator.py`, lines 8-40). -/
structure EKGSimulator where
  sampling_rate : ℕ
  simulation_time_step_seconds : ℚ
  max_buffer_duration_seconds : ℕ
  physiological_state : FullPhysState
  total_simulation_time_seconds : ℚ
  current_ekg_data : List ℚ
deriving DecidableEq, Repr

/-- The initial `physiological_state` dictionary (lines 17-38). -/
def initialFullPhysState : FullPhysState where
  blood_volume_percent := 100
  heart_rate_bpm := 70
  st_depression_mv := 0
  tension_pneumothorax_present := false
  qrs_amplitude_factor := 1
  tbi_present := false
  icp_mmhg := 10
  t_wave_amplitude_factor := 1
  qt_duration_ms := 440
  blast_injury_present := false
  coronary_age_suspected := false
  st_elevation_mv := 0
  serum_k_meq_l := 4
  pr_interval_ms := 160
  qrs_duration_ms := 100
  serum_ca_mg_dl := 19/2
  core_body_temperature_celsius := 37
  osborn_wave_present := false
  ketamine_active := false
  morphine_active := false

/-- The scripted-scenario mutations at the start of
`_generate_new_data_segment` (`ekg_simulator.py`, lines 75-180):
gradual blood loss, the time-step increment, and the time-threshold
condition script.  Each guard reads the state as already mutated by the
earlier lines, exactly as the sequential Python statements do. -/
def scenario_updates (sim : EKGSimulator) : EKGSimulator :=
  let s := sim.physiological_state
  let s := if s.blood_volume_percent > 40 then
             { s with blood_volume_percent := s.blood_volume_percent - 1/20 } else s
  let t := sim.total_simulation_time_seconds + sim.simulation_time_step_seconds
  let s := if t > 15 ∧ s.tension_pneumothorax_present = false ∧ s.tbi_present = false then
             { s with tension_pneumothorax_present := true } else s
  let s := if t > 30 ∧ s.tbi_present = false ∧ s.tension_pneumothorax_present = false ∧
              s.blast_injury_present = false then
             { s with tbi_present := true, icp_mmhg := 30 } else s
  let s := if t > 45 ∧ s.blast_injury_present = false ∧ s.tbi_present = false ∧
              s.tension_pneumothorax_present = false then
             { s with blast_injury_present := true, coronary_age_suspected := true } else s
  let s := if t > 60 ∧ s.serum_k_meq_l < 5 ∧ s.blast_injury_present = false ∧
              s.tbi_present = false ∧ s.tension_pneumothorax_present = false then
             { s with serum_k_meq_l := 34/5 }
           else if t > 75 ∧ s.serum_k_meq_l < 15/2 ∧ s.blast_injury_present = false ∧
              s.tbi_present = false ∧ s.tension_pneumothorax_present = false then
             { s with serum_k_meq_l := 8 } else s
  let s := if t > 90 ∧ s.serum_ca_mg_dl > 8 ∧ s.blast_injury_present = false ∧
              s.tbi_present = false ∧ s.tension_pneumothorax_present = false ∧
              s.serum_k_meq_l < 5 then
             { s with serum_ca_mg_dl := 8 }
           else if t > 105 ∧ s.serum_ca_mg_dl > 13/2 ∧ s.blast_injury_present = false ∧
              s.tbi_present = false ∧ s.tension_pneumothorax_present = false ∧
              s.serum_k_meq_l < 5 then
             { s with serum_ca_mg_dl := 13/2 } else s
  let s := if t > 120 ∧ s.core_body_temperature_celsius > 34 ∧ s.blast_injury_present = false ∧
              s.tbi_present = false ∧ s.tension_pneumothorax_present = false ∧
              s.serum_k_meq_l < 5 ∧ s.serum_ca_mg_dl > 17/2 then
             { s with core_body_temperature_celsius := 34 }
           else if t > 135 ∧ s.core_body_temperature_celsius > 31 ∧ s.blast_injury_present = false ∧
              s.tbi_present = false ∧ s.tension_pneumothorax_present = false ∧
              s.serum_k_meq_l < 5 ∧ s.serum_ca_mg_dl > 17/2 then
             { s with core_body_temperature_celsius := 31 } else s
  let s := if t > 150 ∧ s.ketamine_active = false ∧ s.morphine_active = false ∧
              s.blast_injury_present = false ∧ s.tbi_present = false ∧
              s.tension_pneumothorax_present = false then
             { s with ketamine_active := true } else s
  let s := if t > 165 ∧ s.ketamine_active = true then { s with ketamine_active := false } else s
  let s := if t > 170 ∧ s.morphine_active = false ∧ s.ketamine_active = false ∧
              s.blast_injury_present = false ∧ s.tbi_present = false ∧
              s.tension_pneumothorax_present = false then
             { s with morphine_active := true } else s
  { sim with physiological_state := s, total_simulation_time_seconds := t }

/-- The success path of `EKGSimulator._generate_new_data_segment`
(`ekg_simulator.py`, lines 183-217) once the resolver has returned
`target_ekg_params`: the write-back of all nine targets into
`physiological_state` (lines 184-192), then waveform generation from the
freshly written-back state (lines 196-208) and the buffer
append-and-trim (lines 211-217).  `raw_signal` stands for the raw
baseline waveform the external synthesizer returns for this tick. -/
def writeback_and_append (sim1 : EKGSimulator) (target_ekg_params : Shaping)
    (raw_signal : List ℚ) : EKGSimulator :=
    let s := sim1.physiological_state
    let s := { s with
      heart_rate_bpm := target_ekg_params.target_heart_rate
      st_depression_mv := target_ekg_params.target_st_depression_mv
      st_elevation_mv := target_ekg_params.target_st_elevation_mv
      qrs_amplitude_factor := target_ekg_params.target_qrs_amplitude_factor
      t_wave_amplitude_factor := target_ekg_params.target_t_wave_amplitude_factor
      qt_duration_ms := target_ekg_params.target_qt_duration_ms
      pr_interval_ms := target_ekg_params.target_pr_interval_ms
      qrs_duration_ms := target_ekg_params.target_qrs_duration_ms
      osborn_wave_present := target_ekg_params.target_osborn_wave_present }
    let new_segment := get_ekg_segment raw_signal s.st_depression_mv s.st_elevation_mv
      s.qrs_amplitude_factor s.t_wave_amplitude_factor
    let max_buffer_points := sim1.max_buffer_duration_seconds * sim1.sampling_rate
    let current_ekg_data := appendTrim max_buffer_points sim1.current_ekg_data new_segment
    { sim1 with physiological_state := s, current_ekg_data := current_ekg_data }

/-- One full tick, `EKGSimulator._generate_new_data_segment`
(`ekg_simulator.py`, lines 69-218): the scripted scenario mutations,
then the resolver on the mutated state, then the write-back and buffer
append.  When the resolver raises, the exception propagates out of the
tick and neither the write-back nor any buffer change happens. -/
def generate_new_data_segment (sim : EKGSimulator) (raw_signal : List ℚ) :
    Except NameErr EKGSimulator :=
  match update_ekg_parameters (scenario_updates sim).physiological_state.toPhysState with
  | .error e => .error e
  | .ok target_ekg_params =>
      .ok (writeback_and_append (scenario_updates sim) target_ekg_params raw_signal)

/-!
## Theorems for the claims
-/

/-- C1: the claim says `update_ekg_parameters` completes on every state and
never dies with an undefined-variable error.  The code contradicts it (and
its own docstring, which promises a returned dictionary): on the default
state — every field absent, so every read falls back to its documented
default, `core_body_temperature_celsius = 37.0` included — no hypothermia
tier runs, the local `target_pr_interval_ms` is never assigned, and the
`return` dictionary read of it raises `UnboundLocalError`. -/
theorem resolver_raises_on_default_state :
    update_ekg_parameters PhysState.empty = .error NameErr.target_pr_interval_ms := by
  simp only [update_ekg_parameters, PhysState.empty, Option.getD_none, pyRound]
  norm_num

/-- C2: the claim says blood volume in [75,90] yields heart rate =
baseline × uniform(1.1,1.2) and ST depression 0.05.  The code's tier-II
branch instead evaluates `base_heart_rate * np.random.uniform(1.1, 1.2)`
where `base_heart_rate` is defined nowhere, so the call raises
`NameError` before any random draw: at `blood_volume_percent = 80` the
resolver returns nothing at all. -/
theorem shock_tier_raises_name_error :
    update_ekg_parameters { blood_volume_percent := some 80 }
      = .error NameErr.base_heart_rate := by
  simp only [update_ekg_parameters, Option.getD_some]
  norm_num

/-- C3: the claim says `serum_k_meq_l = 8.0` (nothing else active) yields
PR = 300, QRS duration = 160 and heart rate ≤ 60.  In the code the severe
hyperkalemia tier writes PR/QRS into the locals `target_pr_ms` /
`target_qrs_ms`, which never reach the returned dictionary; the returned
keys read `target_pr_interval_ms` / `target_qrs_duration_ms`, locals
assigned only by the hypothermia tiers.  Hence with `serum_k = 8` and all
other fields absent (temperature default 37) the call raises
`UnboundLocalError`, and with hypothermia added (temperature 34) so that
the function can return at all, the returned PR is 220 and QRS is 110,
not 300/160. -/
theorem hyperkalemia_pr_qrs_lost :
    update_ekg_parameters { serum_k_meq_l := some 8 }
        = .error NameErr.target_pr_interval_ms
    ∧ update_ekg_parameters
        { serum_k_meq_l := some 8, core_body_temperature_celsius := some 34 }
      = .ok { target_heart_rate := 60
              target_st_depression_mv := 0
              target_qrs_amplitude_factor := 1
              target_t_wave_amplitude_factor := 5/2
              target_qt_duration_ms := 480
              target_st_elevation_mv := 0
              target_pr_interval_ms := 220
              target_qrs_duration_ms := 110
              target_osborn_wave_present := true } := by
  constructor
  · simp only [update_ekg_parameters, Option.getD_some, Option.getD_none, pyRound]
    norm_num
  · simp only [update_ekg_parameters, Option.getD_some, Option.getD_none, pyRound]
    norm_num

/-- C4: the claim says the hypocalcemia rule maxes QT against the current
target produced by prior rules, so with TBI (QT target 500) and
`serum_ca ∈ [7.0, 8.5)` the returned QT is max(500, 480) = 500.  The
code instead maxes against the raw state's `qt_duration_ms` (440),
discarding TBI's 500 — even though its own comment (lines 157-159) says
the max is there precisely to preserve a TBI-prolonged QT.  At
tbi_present, icp = 25, serum_ca = 7.5 and temperature 34 (needed for the
function to return at all; the hypothermia QT write also reads the raw
state) the returned QT is 480, not 500. -/
theorem hypocalcemia_discards_tbi_qt :
    update_ekg_parameters
        { tbi_present := some true, icp_mmhg := some 25,
          serum_ca_mg_dl := some (15/2), core_body_temperature_celsius := some 34 }
      = .ok { target_heart_rate := 55
              target_st_depression_mv := 0
              target_qrs_amplitude_factor := 1
              target_t_wave_amplitude_factor := 2
              target_qt_duration_ms := 480
              target_st_elevation_mv := 0
              target_pr_interval_ms := 220
              target_qrs_duration_ms := 110
              target_osborn_wave_present := true } := by
  simp only [update_ekg_parameters, Option.getD_some, Option.getD_none, pyRound]
  norm_num

/-- C5: the claim says blood volume in [91,100] (nothing else active)
yields heart rate = baseline and ST depression 0 even when the state's
`st_depression_mv` is non-zero on entry.  In the code the >90% branch is
`pass`, so the target ST depression keeps the state's entry value; and
with every other field absent (temperature default 37) the call does not
return at all but raises `UnboundLocalError` at the return statement.
With hypothermia added (temperature 34) so that the function returns,
the returned ST depression is the entry value 0.3, not 0. -/
theorem normovolemic_keeps_entry_st_depression :
    update_ekg_parameters
        { blood_volume_percent := some 95, st_depression_mv := some (3/10) }
      = .error NameErr.target_pr_interval_ms
    ∧ update_ekg_parameters
        { blood_volume_percent := some 95, st_depression_mv := some (3/10),
          core_body_temperature_celsius := some 34 }
      = .ok { target_heart_rate := 60
              target_st_depression_mv := 3/10
              target_qrs_amplitude_factor := 1
              target_t_wave_amplitude_factor := 1
              target_qt_duration_ms := 480
              target_st_elevation_mv := 0
              target_pr_interval_ms := 220
              target_qrs_duration_ms := 110
              target_osborn_wave_present := true } := by
  constructor
  · simp only [update_ekg_parameters, Option.getD_some, Option.getD_none, pyRound]
    norm_num
  · simp only [update_ekg_parameters, Option.getD_some, Option.getD_none, pyRound]
    norm_num

/-- C6: the claim says tension pneumothorax yields QRS amplitude factor
0.5 regardless of the hypovolemic-shock tier and heart rate ≥ max(120,
shock-adjusted rate).  On the code: with a shock tier active
(`blood_volume_percent = 80`) the call raises `NameError` at the
undefined `base_heart_rate` before the pneumothorax logic runs; with
everything else at its default it raises `UnboundLocalError` at the
return statement; and on the only states where the function does return
(temperature < 35) the hypothermia rule caps the heart rate at ≤ 60, so
the returned rate is 60 < 120 even though the factor is indeed 0.5. -/
theorem pneumothorax_claim_fails :
    update_ekg_parameters
        { tension_pneumothorax_present := some true, blood_volume_percent := some 80 }
      = .error NameErr.base_heart_rate
    ∧ update_ekg_parameters { tension_pneumothorax_present := some true }
      = .error NameErr.target_pr_interval_ms
    ∧ update_ekg_parameters
        { tension_pneumothorax_present := some true,
          core_body_temperature_celsius := some 34 }
      = .ok { target_heart_rate := 60
              target_st_depression_mv := 0
              target_qrs_amplitude_factor := 1/2
              target_t_wave_amplitude_factor := 1
              target_qt_duration_ms := 480
              target_st_elevation_mv := 0
              target_pr_interval_ms := 220
              target_qrs_duration_ms := 110
              target_osborn_wave_present := true } := by
  refine ⟨?_, ?_, ?_⟩ <;>
    · simp only [update_ekg_parameters, Option.getD_some, Option.getD_none, pyRound]
      norm_num

/-- C7: every shaped sample equals the raw sample multiplied by the QRS
amplitude factor, then by the damped T-wave scaling
`1 + (t_wave_amplitude_factor - 1) * 0.1`, then shifted by `+elevation`
if elevation > 0, else by `-depression` if depression > 0, else
unshifted, in that order.  The guards `factor != 1.0` in the source skip
multiplications that are the identity, so they do not change the
result. -/
theorem shaped_sample_formula (raw_signal : List ℚ) (dep elev f t : ℚ) :
    get_ekg_segment raw_signal dep elev f t =
      raw_signal.map (fun x => x * f * (1 + (t - 1) * (1/10)) +
        (if elev > 0 then elev else if dep > 0 then -dep else 0)) := by
  simp only [get_ekg_segment]
  by_cases hf : f = 1 <;> by_cases ht : t = 1 <;>
    by_cases he : elev > 0 <;> by_cases hd : dep > 0
  all_goals first
    | (have hs : (1 + (t - 1) * (1/10) : ℚ) ≠ 1 := fun hc => ht (by linarith)
       simp only [hf, ht, hs, he, hd, ne_eq, not_true_eq_false, not_false_eq_true,
         ite_true, ite_false, List.map_map])
    | simp only [hf, ht, he, hd, ne_eq, not_true_eq_false, not_false_eq_true,
        ite_true, ite_false, List.map_map]
  all_goals (try (conv_lhs => rw [← List.map_id raw_signal]))
  all_goals try simp only [List.map_map]
  all_goals refine List.map_congr_left fun a _ => ?_
  all_goals simp only [Function.comp_apply, id_eq]
  all_goals ring

/-- Helper for C10: the resolver never reads the state's
`qrs_amplitude_factor` key, so its result is invariant under that
field. -/
theorem update_ekg_parameters_ignores_qrs_field (s : PhysState) (v : Option ℚ) :
    update_ekg_parameters { s with qrs_amplitude_factor := v } = update_ekg_parameters s := by
  cases s
  rfl

/-- C10: whenever the resolver returns, the returned QRS amplitude
factor is exactly 0.5 when tension pneumothorax is present and exactly
1.0 otherwise — no other value is ever produced — and the state's own
`qrs_amplitude_factor` entry is never read (the result is invariant
under it). -/
theorem qrs_factor_binary_and_field_unread (s : PhysState) (p : Shaping)
    (h : update_ekg_parameters s = .ok p) :
    p.target_qrs_amplitude_factor
        = (if s.tension_pneumothorax_present.getD false then 1/2 else 1)
    ∧ ∀ v, update_ekg_parameters { s with qrs_amplitude_factor := v }
        = update_ekg_parameters s := by
  refine ⟨?_, fun v => update_ekg_parameters_ignores_qrs_field s v⟩
  unfold update_ekg_parameters at h
  by_cases hbv : s.blood_volume_percent.getD 100 > 90
  · rw [if_neg (not_not_intro hbv)] at h
    by_cases ht : s.core_body_temperature_celsius.getD 37 < 35
    · rw [if_pos ht] at h
      rw [Except.ok.injEq] at h
      subst h
      rfl
    · rw [if_neg ht] at h
      exact Except.noConfusion h
  · rw [if_pos hbv] at h
    exact Except.noConfusion h

/-- Witness for C10 at a concrete returning state (pneumothorax present,
temperature 34 so that the resolver returns): the returned factor is
0.5. -/
theorem qrs_factor_binary_witness :
    (Shaping.mk 60 0 (1/2) 1 480 0 220 110 true).target_qrs_amplitude_factor
      = (if (({ tension_pneumothorax_present := some true,
                core_body_temperature_celsius := some 34 } :
              PhysState).tension_pneumothorax_present).getD false then 1/2 else 1) :=
  (qrs_factor_binary_and_field_unread
    { tension_pneumothorax_present := some true, core_body_temperature_celsius := some 34 }
    (Shaping.mk 60 0 (1/2) 1 480 0 220 110 true)
    (by simp only [update_ekg_parameters, Option.getD_some, Option.getD_none, pyRound]
        norm_num)).1

/-- C9: whenever the tick's resolver returns, `_generate_new_data_segment`
writes every one of the nine resolved targets back into
`physiological_state`, so the next tick's "baseline" heart rate is this
tick's resolved rate. -/
theorem tick_writes_back_targets (sim : EKGSimulator) (raw_signal : List ℚ) (p : Shaping)
    (h : update_ekg_parameters (scenario_updates sim).physiological_state.toPhysState
          = .ok p) :
    ∃ sim', generate_new_data_segment sim raw_signal = .ok sim' ∧
      sim'.physiological_state.heart_rate_bpm = p.target_heart_rate ∧
      sim'.physiological_state.st_depression_mv = p.target_st_depression_mv ∧
      sim'.physiological_state.st_elevation_mv = p.target_st_elevation_mv ∧
      sim'.physiological_state.qrs_amplitude_factor = p.target_qrs_amplitude_factor ∧
      sim'.physiological_state.t_wave_amplitude_factor = p.target_t_wave_amplitude_factor ∧
      sim'.physiological_state.qt_duration_ms = p.target_qt_duration_ms ∧
      sim'.physiological_state.pr_interval_ms = p.target_pr_interval_ms ∧
      sim'.physiological_state.qrs_duration_ms = p.target_qrs_duration_ms ∧
      sim'.physiological_state.osborn_wave_present = p.target_osborn_wave_present := by
  unfold generate_new_data_segment
  rw [h]
  exact ⟨_, rfl, rfl, rfl, rfl, rfl, rfl, rfl, rfl, rfl, rfl⟩

/-- A concrete simulator for exercising a successful tick: the initial
simulator state with core temperature 34 (so that the resolver can
return) and an empty buffer. -/
def witness_sim : EKGSimulator where
  sampling_rate := 100
  simulation_time_step_seconds := 1/10
  max_buffer_duration_seconds := 11
  physiological_state := { initialFullPhysState with core_body_temperature_celsius := 34 }
  total_simulation_time_seconds := 0
  current_ekg_data := []

/-- Witness for C9: a concrete successful tick writes the resolved
targets (heart rate 60, PR 220, QRS duration 110, QT 480, Osborn true,
etc.) into the state. -/
theorem tick_writes_back_targets_witness :
    ∃ sim', generate_new_data_segment witness_sim [] = .ok sim' ∧
      sim'.physiological_state.heart_rate_bpm = 60 ∧
      sim'.physiological_state.st_depression_mv = 0 ∧
      sim'.physiological_state.st_elevation_mv = 0 ∧
      sim'.physiological_state.qrs_amplitude_factor = 1 ∧
      sim'.physiological_state.t_wave_amplitude_factor = 1 ∧
      sim'.physiological_state.qt_duration_ms = 480 ∧
      sim'.physiological_state.pr_interval_ms = 220 ∧
      sim'.physiological_state.qrs_duration_ms = 110 ∧
      sim'.physiological_state.osborn_wave_present = true :=
  tick_writes_back_targets witness_sim [] (Shaping.mk 60 0 1 1 480 0 220 110 true)
    (by simp only [witness_sim, initialFullPhysState, scenario_updates,
          FullPhysState.toPhysState, update_ekg_parameters, Option.getD_some, pyRound]
        norm_num)

/-!
## SignalBuffer lemmas (C8)
-/

/-- The trim applied to a buffer: keep the Python tail slice of
`bound` samples when the length exceeds `bound`, else leave it alone. -/
def trimTo (bound : ℕ) (xs : List ℚ) : List ℚ :=
  if bound < xs.length then pyTailSlice bound xs else xs

theorem appendTrim_eq_trimTo (bound : ℕ) (a b : List ℚ) :
    appendTrim bound a b = trimTo bound (a ++ b) := rfl

theorem trimTo_eq_rtake (bound : ℕ) (hb : 0 < bound) (xs : List ℚ) :
    trimTo bound xs = (xs.reverse.take bound).reverse := by
  rw [trimTo, pyTailSlice, if_neg (Nat.pos_iff_ne_zero.mp hb)]
  by_cases h : bound < xs.length
  · rw [if_pos h]
    rw [← List.rtake_eq_reverse_take_reverse]
    rfl
  · rw [if_neg h]
    rw [List.take_of_length_le (by simp; omega), List.reverse_reverse]

theorem take_append_take (n : ℕ) (u v : List ℚ) :
    (u ++ v.take n).take n = (u ++ v).take n := by
  rw [List.take_append_eq_append_take, List.take_append_eq_append_take, List.take_take,
    Nat.min_eq_left (Nat.sub_le n u.length)]

/-- Trimming an already-trimmed buffer before a fresh append gives the
same result as trimming the full concatenation once. -/
theorem trimTo_append_trimTo (bound : ℕ) (hb : 0 < bound) (a b : List ℚ) :
    trimTo bound (trimTo bound a ++ b) = trimTo bound (a ++ b) := by
  rw [trimTo_eq_rtake bound hb a, trimTo_eq_rtake bound hb, trimTo_eq_rtake bound hb,
    List.reverse_append, List.reverse_append, List.reverse_reverse]
  rw [take_append_take]

theorem foldl_appendTrim (bound : ℕ) (hb : 0 < bound) (segments : List (List ℚ)) :
    ∀ b : List ℚ, segments.foldl (appendTrim bound) (trimTo bound b)
      = trimTo bound (b ++ segments.flatten) := by
  induction segments with
  | nil => intro b; simp
  | cons s rest ih =>
      intro b
      rw [List.foldl_cons, appendTrim_eq_trimTo, trimTo_append_trimTo bound hb, ih (b ++ s)]
      simp

/-- The buffer contents after any sequence of appends equal one trim of
the full concatenation of all appended segments. -/
theorem bufferAfter_eq_trimTo (bound : ℕ) (hb : 0 < bound) (segments : List (List ℚ)) :
    bufferAfter bound segments = trimTo bound segments.flatten := by
  have h0 : trimTo bound [] = [] := by simp [trimTo]
  have := foldl_appendTrim bound hb segments []
  rw [h0] at this
  simpa [bufferAfter] using this

/-- C8 counterexample: with `display_seconds = 0` and a non-empty buffer
the claim says the visible-window read returns the most recent
`0 × sampling_rate = 0` samples (the buffer, of length 1, is not shorter
than 0).  The code computes the Python slice `buf[-0:]`, which is the
whole buffer, so it returns `[1]`, not `[]`. -/
theorem window_read_zero_display_counterexample :
    get_latest_window 0 100 [(1 : ℚ)] = [(1 : ℚ)]
    ∧ most_recent_spec (0 * 100) [(1 : ℚ)] = ([] : List ℚ)
    ∧ ¬ ([(1 : ℚ)].length < 0 * 100) := by
  refine ⟨rfl, rfl, by simp⟩

/-- C8 amended: with the simulator's `sampling_rate = 100`: (1) while
the accumulated segments total at most `(display_seconds + 1) × 100`
samples the buffer holds the entire accumulated sequence in order;
(2) once they exceed that bound the buffer holds exactly the most recent
bound-many samples in order; (3) the visible-window read returns the
whole buffer when it is shorter than `display_seconds × 100`;
(4) for `display_seconds ≥ 1` it returns the most recent
`display_seconds × 100` samples otherwise; (5) for `display_seconds = 0`
it returns the entire buffer (not zero samples — the Python `[-0:]`
slice); and (6) on an empty buffer it returns the empty sequence, never
an error. -/
theorem signal_buffer_roundtrip_amended (display_seconds : ℕ)
    (segments : List (List ℚ)) (buf : List ℚ) :
    (segments.flatten.length ≤ (display_seconds + 1) * 100 →
      bufferAfter ((display_seconds + 1) * 100) segments = segments.flatten)
    ∧ ((display_seconds + 1) * 100 < segments.flatten.length →
      bufferAfter ((display_seconds + 1) * 100) segments
        = most_recent_spec ((display_seconds + 1) * 100) segments.flatten)
    ∧ (buf.length < display_seconds * 100 →
      get_latest_window display_seconds 100 buf = buf)
    ∧ (1 ≤ display_seconds → display_seconds * 100 ≤ buf.length →
      get_latest_window display_seconds 100 buf
        = most_recent_spec (display_seconds * 100) buf)
    ∧ (display_seconds = 0 → get_latest_window display_seconds 100 buf = buf)
    ∧ get_latest_window display_seconds 100 [] = [] := by
  have hb : 0 < (display_seconds + 1) * 100 := by positivity
  refine ⟨?_, ?_, ?_, ?_, ?_, ?_⟩
  · intro hle
    rw [bufferAfter_eq_trimTo _ hb, trimTo, if_neg (by omega)]
  · intro hgt
    rw [bufferAfter_eq_trimTo _ hb, trimTo, if_pos hgt, pyTailSlice,
      if_neg (by omega), most_recent_spec]
  · intro hlt
    rw [get_latest_window, if_pos hlt]
  · intro hds hge
    rw [get_latest_window, if_neg (by omega), pyTailSlice, if_neg (by omega),
      most_recent_spec]
  · intro h0
    subst h0
    rw [get_latest_window, if_neg (by simp), pyTailSlice, if_pos (by simp)]
  · rcases Nat.eq_zero_or_pos (display_seconds * 100) with h | h
    · rw [get_latest_window, h, if_neg (by simp), pyTailSlice, if_pos rfl]
    · rw [get_latest_window, if_pos (by simpa using h)]

set_option maxRecDepth 4000 in
/-- Witness for C8 amended, exercising the under-bound append, the
over-bound append and the short-buffer window read at concrete inputs. -/
theorem signal_buffer_roundtrip_witness :
    bufferAfter ((1 + 1) * 100) [[(1 : ℚ), 2]] = [(1 : ℚ), 2]
    ∧ bufferAfter ((1 + 1) * 100) [List.replicate 250 (0 : ℚ)]
        = most_recent_spec ((1 + 1) * 100) (List.replicate 250 (0 : ℚ))
    ∧ get_latest_window 1 100 [(5 : ℚ)] = [(5 : ℚ)] :=
  ⟨by simpa using
      (signal_buffer_roundtrip_amended 1 [[(1 : ℚ), 2]] []).1 (by simp),
   by simpa using
      (signal_buffer_roundtrip_amended 1 [List.replicate 250 (0 : ℚ)] []).2.1 (by simp),
   (signal_buffer_roundtrip_amended 1 [] [(5 : ℚ)]).2.2.1 (by simp)⟩

end CardiacSim
